import Mathlib

/-!
Shallow embedding of `src/io-obs/util/overlay.cpp` (the `overlay` class of
input-overlay): element registry loading, data-record allocation, the
refresh (pull + merge) protocol and draw dispatch.  External collaborators
(the ccl config reader, the graphics backend, the hook and network
producers, the per-variant `merge` implementations) live outside `src/` and
are modelled as opaque oracles packaged in an environment record, following
the spec's description of their interfaces.  Machine `uint32_t` casts are
made explicit; C++ `float` fields only ever carry the literal `0.f` in this
file and are modelled as `Int`.
-/

namespace input_overlay

/-- Pressed/released state constants (STATE_PRESSED / STATE_RELEASED),
from the layout constants header. -/
inductive button_state
  | STATE_RELEASED
  | STATE_PRESSED
deriving DecidableEq

/-- Modelled from the spec: D-pad direction constants; only DPAD_LEFT is
used by `overlay.cpp` (as the default direction of a fresh dpad record). -/
inductive dpad_direction
  | DPAD_LEFT
  | DPAD_RIGHT
  | DPAD_UP
  | DPAD_DOWN
deriving DecidableEq

/-- Element kind tags of the closed variant set used by the factory switch
in `overlay::load_element` (layout_constants.hpp is outside src/; the
constructors carry the names used by `overlay.cpp`). -/
inductive element_type
  | TEXTURE
  | BUTTON
  | MOUSE_SCROLLWHEEL
  | TRIGGER
  | ANALOG_STICK
  | GAMEPAD_ID
  | DPAD_STICK
  | MOUSE_MOVEMENT
  | TEXT
  | INVALID
deriving DecidableEq

/-- Modelled from the spec: the numeric encoding of the element-kind tags
(`layout_constants.hpp` is not under src/); `overlay::load_element`
switches on the integer read from the config, with unrecognized values
falling to the default branch (represented by `INVALID`). -/
def element_type_from_int : Int → element_type
  | 0 => element_type.TEXTURE
  | 1 => element_type.BUTTON
  | 2 => element_type.MOUSE_SCROLLWHEEL
  | 3 => element_type.TRIGGER
  | 4 => element_type.ANALOG_STICK
  | 5 => element_type.GAMEPAD_ID
  | 6 => element_type.DPAD_STICK
  | 7 => element_type.MOUSE_MOVEMENT
  | 8 => element_type.TEXT
  | _ => element_type.INVALID

/-- Source affinity of an element (`element->get_source()` in the refresh
switch): GAMEPAD, MOUSE_POS, DEFAULT or NONE. -/
inductive element_side
  | GAMEPAD
  | MOUSE_POS
  | DEFAULT
  | NONE
deriving DecidableEq

/-- Runtime state records: one constructor per `element_data_*` class
allocated in the populate loop of `overlay::load_cfg`.  The float fields
(trigger and analog-stick axes, initialised to `0.f` there) are modelled
as `Int`. -/
inductive element_data
  | button (state : button_state)
  | wheel (state : button_state)
  | trigger (left right : Int)
  | analog_stick (left right : button_state) (lx ly rx ry : Int)
  | dpad (dir : dpad_direction) (state : button_state)
  | mouse_stats (a b : Int)
deriving DecidableEq

/-- A loaded visual element: kind tag, keycode, source affinity and the
descriptor identifier it was built from.  Geometry fields are irrelevant
to every claim and omitted.  keycode and affinity are self-populated by
`element::load` (outside src/), modelled as config reads. -/
structure element where
  type : element_type
  keycode : Nat
  source : element_side
  id : String
deriving DecidableEq

/-- A producer-side data holder (`element_data_holder`, outside src/):
queried by keycode, or by (gamepad index, keycode). -/
structure data_holder where
  get_by_code : Nat → Option element_data
  get_by_gamepad : Nat → Nat → Option element_data

/-- A network client (`io_client`, outside src/): exposes its data holder
via `get_data()`. -/
structure net_client where
  data : data_holder

/-- The network server (`io_server`, outside src/): per-client data
holders addressable by 0-based client index via `get_client`. -/
structure server_type where
  get_client : Nat → net_client

/-- The settings struct shared with the source (`sources::shared_settings`):
paths, logical size, gamepad index and the 1-based remote-source index
(0 = local). -/
structure shared_settings where
  image_file : String
  layout_file : String
  cx : Nat
  cy : Nat
  gamepad : Nat
  selected_source : Nat
deriving DecidableEq

/-- Modelled from the spec: the ccl config reader (`ccl.hpp`, not under
src/) as a snapshot oracle: error flags of the parsed document plus the
keyed accessors `overlay::load_cfg` / `overlay::load_element` use.
`keycodeOf`/`sourceOf` stand for the element's self-population
(`element::load`, outside src/) of its keycode and source affinity from
the same document.  Fatal errors are a subclass of errors ("a
configuration with only non-fatal errors"), recorded as a proof field. -/
structure ccl_config where
  hasErrors : Bool
  hasFatalErrors : Bool
  fatal_are_errors : hasFatalErrors = true → hasErrors = true
  getInt : String → Int
  getString : String → String
  getBool : String → Bool
  keycodeOf : String → Nat
  sourceOf : String → element_side

/-- Modelled from the spec: the configuration key constants from
`layout_constants.hpp` (not under src/).  Their concrete values are
irrelevant: every theorem quantifies over the config oracle. -/
def CFG_TOTAL_WIDTH : String := "overlay_width"

/-- Config key for the overlay's total height. -/
def CFG_TOTAL_HEIGHT : String := "overlay_height"

/-- Config key naming the first element descriptor of the chain. -/
def CFG_FIRST_ID : String := "first_id"

/-- Config key for the debug-logging flag. -/
def CFG_DEBUG_FLAG : String := "debug"

/-- Per-descriptor suffix naming the next descriptor in the chain. -/
def CFG_NEXT_ID : String := "_next"

/-- Per-descriptor suffix holding the element kind tag. -/
def CFG_TYPE : String := "_type"

/-- The environment of external collaborators: graphics backend image
loading, config construction from a layout path, the per-variant `merge`
operation (element_data classes are outside src/), and the hook/network
producer globals read by `overlay::refresh_data`. -/
structure Env where
  load_image : String → Option (Nat × Nat)
  cfg_of : String → ccl_config
  merge : element_data → Option element_data → element_data
  data_initialized : Bool
  input_data : Option data_holder
  network_flag : Bool
  server_instance : Option server_type

/-- The `overlay` class state: element sequence, keyed data collection
(modelled as a total function into `Option`, matching the observable
behaviour of `std::map` + `operator[]` with null `unique_ptr` defaults),
settings, loaded flag and the texture (its pixel dimensions). -/
structure overlay where
  m_elements : List element
  m_data : Nat → Option element_data
  m_settings : shared_settings
  m_is_loaded : Bool
  m_image : Option (Nat × Nat)

/-- The `static_cast<uint32_t>` applied to `cfg->get_int` results in
`overlay::load_cfg`. -/
def int_to_uint32 (i : Int) : Nat := (i % 4294967296).toNat

/-- Embeds `overlay::load_element`: reads the kind tag of descriptor `id`,
constructs the matching element (TEXT and unrecognized tags yield none),
and lets the element self-populate its keycode and source affinity. -/
def load_element (cfg : ccl_config) (id : String) (debug : Bool) : Option element :=
  match element_type_from_int (cfg.getInt (id ++ CFG_TYPE)) with
  | element_type.TEXT => none
  | element_type.INVALID => none
  | t => some { type := t, keycode := cfg.keycodeOf id, source := cfg.sourceOf id, id := id }

/-- The descriptor-chain loop of `overlay::load_cfg`
(`while (!element_id.empty())`), fuel-indexed since a cyclic chain makes
the C++ loop diverge; every theorem holds for every fuel. -/
def load_chain (cfg : ccl_config) (debug : Bool) : Nat → String → List element
  | 0, _ => []
  | fuel + 1, id =>
    if id = "" then []
    else
      match load_element cfg id debug with
      | some e => e :: load_chain cfg debug fuel (cfg.getString (id ++ CFG_NEXT_ID))
      | none => load_chain cfg debug fuel (cfg.getString (id ++ CFG_NEXT_ID))

/-- The `switch (element->get_type())` of the populate loop in
`overlay::load_cfg`: the freshly allocated default record for a kind, or
none for kinds without a data variant (the `default:` branch leaves
`data = nullptr`). -/
def default_element_data : element_type → Option element_data
  | element_type.BUTTON => some (element_data.button button_state.STATE_RELEASED)
  | element_type.MOUSE_SCROLLWHEEL => some (element_data.wheel button_state.STATE_RELEASED)
  | element_type.TRIGGER => some (element_data.trigger 0 0)
  | element_type.ANALOG_STICK =>
      some (element_data.analog_stick button_state.STATE_RELEASED button_state.STATE_RELEASED 0 0 0 0)
  | element_type.DPAD_STICK => some (element_data.dpad dpad_direction.DPAD_LEFT button_state.STATE_RELEASED)
  | element_type.MOUSE_MOVEMENT => some (element_data.mouse_stats 0 0)
  | _ => none

/-- Point update of the keyed data collection, the observable effect of
`m_data[keycode] = value` on the `std::map`. -/
def map_update (d : Nat → Option element_data) (k : Nat) (v : Option element_data) :
    Nat → Option element_data :=
  fun x => if x = k then v else d x

/-- The populate loop of `overlay::load_cfg`
(`for (auto const& element : m_elements) ... m_data[element->get_keycode()] = ...`):
forward iteration, each data-bearing element overwriting the entry at its
keycode. -/
def populate_data (es : List element) (d : Nat → Option element_data) : Nat → Option element_data :=
  match es with
  | [] => d
  | e :: rest =>
    populate_data rest
      (match default_element_data e.type with
       | some v => map_update d e.keycode (some v)
       | none => d)

/-- The parse phase of `overlay::load_cfg`: skipped entirely under fatal
errors; otherwise reads total width/height into the settings (with the
`uint32_t` cast) and walks the descriptor chain from `CFG_FIRST_ID`. -/
def load_cfg_parse (cfg : ccl_config) (fuel : Nat) (o : overlay) : overlay :=
  if cfg.hasFatalErrors then o
  else
    { o with
      m_settings :=
        { o.m_settings with
          cx := int_to_uint32 (cfg.getInt CFG_TOTAL_WIDTH),
          cy := int_to_uint32 (cfg.getInt CFG_TOTAL_HEIGHT) },
      m_elements :=
        o.m_elements ++ load_chain cfg (cfg.getBool CFG_DEBUG_FLAG) fuel (cfg.getString CFG_FIRST_ID) }

/-- The error-handling tail of `overlay::load_cfg`: under errors, fatal
errors clear the success flag, while non-fatal errors populate the data
map from the element sequence; with no reported errors nothing further
happens and the flag stays true. -/
def load_cfg_finish (cfg : ccl_config) (o : overlay) : overlay × Bool :=
  if cfg.hasErrors then
    if cfg.hasFatalErrors then (o, false)
    else ({ o with m_data := populate_data o.m_elements o.m_data }, true)
  else (o, true)

/-- Embeds `overlay::load_cfg`: fails outright on an empty layout path, otherwise
builds the config from the path and runs the parse and finish phases. -/
def overlay.load_cfg (E : Env) (fuel : Nat) (o : overlay) : overlay × Bool :=
  if o.m_settings.layout_file = "" then (o, false)
  else
    load_cfg_finish (E.cfg_of o.m_settings.layout_file)
      (load_cfg_parse (E.cfg_of o.m_settings.layout_file) fuel o)

/-- Embeds `overlay::load_texture`: fails on an empty image path or a failed
image load; on success stores the texture and propagates its pixel
dimensions into the settings' logical size. -/
def overlay.load_texture (E : Env) (o : overlay) : overlay × Bool :=
  if o.m_settings.image_file = "" then (o, false)
  else
    match E.load_image o.m_settings.image_file with
    | none => ({ o with m_image := none }, false)
    | some wh =>
      ({ o with
          m_image := some wh,
          m_settings := { o.m_settings with cx := wh.1, cy := wh.2 } }, true)

/-- Embeds `overlay::unload`: releases the texture, clears elements and data, and
resets the volatile settings fields (gamepad 0, 100x100 logical size). -/
def overlay.unload (o : overlay) : overlay :=
  { o with
    m_image := none,
    m_elements := [],
    m_data := fun _ => none,
    m_settings := { o.m_settings with gamepad := 0, cx := 100, cy := 100 } }

/-- The tail of `overlay::load`: `m_is_loaded = image_loaded && cfg_flag`,
and on failure reset the gamepad index and, when the texture itself failed,
the 100x100 default logical size. -/
def load_finish (image_loaded : Bool) (p : overlay × Bool) : overlay :=
  if image_loaded && p.2 then { p.1 with m_is_loaded := true }
  else
    { p.1 with
      m_is_loaded := false,
      m_settings :=
        if image_loaded then { p.1.m_settings with gamepad := 0 }
        else { p.1.m_settings with gamepad := 0, cx := 100, cy := 100 } }

/-- Embeds `overlay::load`: always unloads first, loads the texture, then (only
when the texture loaded — C++ `&&` short-circuits) the layout config, and
finishes by setting `m_is_loaded` and the failure defaults. -/
def overlay.load (E : Env) (fuel : Nat) (o : overlay) : overlay :=
  load_finish (overlay.load_texture E o.unload).2
    (if (overlay.load_texture E o.unload).2 then
      overlay.load_cfg E fuel (overlay.load_texture E o.unload).1
     else ((overlay.load_texture E o.unload).1, false))

/-- The source-selection head of `overlay::refresh_data`: under either
producer being available (`hook::data_initialized || network::network_flag`),
a non-null server instance together with a positive selected-source
setting picks the client at the 0-based index `selected_source - 1`;
otherwise the local hook holder (itself a possibly-null pointer). -/
def select_source (E : Env) (s : shared_settings) : Option data_holder :=
  if E.data_initialized || E.network_flag then
    match E.server_instance with
    | some srv =>
      if 0 < s.selected_source then some ((srv.get_client (s.selected_source - 1)).data)
      else E.input_data
    | none => E.input_data
  else none

/-- The per-element fetch switch of `overlay::refresh_data`
(`element_data* data = nullptr; if (source) { switch (element->get_source()) ... }`):
GAMEPAD fetches by (gamepad index, keycode); the `default:` label and
MOUSE_POS fall through to DEFAULT's fetch by keycode; NONE leaves the
fragment null. -/
def pull_fragment (source : Option data_holder) (s : shared_settings) (e : element) :
    Option element_data :=
  match source with
  | none => none
  | some src =>
    match e.source with
    | element_side.GAMEPAD => src.get_by_gamepad s.gamepad e.keycode
    | element_side.MOUSE_POS => src.get_by_code e.keycode
    | element_side.DEFAULT => src.get_by_code e.keycode
    | element_side.NONE => none

/-- One iteration of the refresh loop body: fetch the fragment for the
element, then `if (m_data[keycode] != nullptr) m_data[keycode]->merge(data)`. -/
def refresh_step (merge : element_data → Option element_data → element_data)
    (src : data_holder) (s : shared_settings)
    (d : Nat → Option element_data) (e : element) : Nat → Option element_data :=
  match d e.keycode with
  | some v => map_update d e.keycode (some (merge v (pull_fragment (some src) s e)))
  | none => d

/-- Embeds `overlay::refresh_data`: select a source under both producer locks;
with no source the cycle is skipped, otherwise the loop merges a fetched
fragment into every element's existing data record, in sequence order. -/
def overlay.refresh_data (E : Env) (o : overlay) : overlay :=
  match select_source E o.m_settings with
  | none => o
  | some src =>
    { o with m_data := o.m_elements.foldl (refresh_step E.merge src o.m_settings) o.m_data }

/-- Embeds `overlay::draw`, modelled as the sequence of per-element draw
invocations it performs: nothing when unloaded, otherwise one call per
element in sequence order, each receiving the `m_data[keycode].get()`
pointer (null — `none` — when no record was allocated for that keycode,
since `std::map::operator[]` default-constructs a null `unique_ptr`). -/
def overlay.draw (o : overlay) : List (element × Option element_data) :=
  if o.m_is_loaded then o.m_elements.map (fun e => (e, o.m_data e.keycode)) else []

/-! Derived characterizations of the load pipeline, used by the claim
theorems. -/

/-- Whether `overlay::load_texture` succeeds for an image path: non-empty
and the backend can load it. -/
def tex_ok (E : Env) (f : String) : Bool :=
  if f = "" then false else (E.load_image f).isSome

/-- Whether `overlay::load_cfg` returns true for a layout path: non-empty
and the parsed document has no fatal errors. -/
def cfg_flag (E : Env) (l : String) : Bool :=
  if l = "" then false else !(E.cfg_of l).hasFatalErrors

/-- The element sequence a fresh load produces for a layout path. -/
def loaded_elements (E : Env) (fuel : Nat) (l : String) : List element :=
  if l = "" then []
  else if (E.cfg_of l).hasFatalErrors then []
  else
    load_chain (E.cfg_of l) ((E.cfg_of l).getBool CFG_DEBUG_FLAG) fuel
      ((E.cfg_of l).getString CFG_FIRST_ID)

/-- The data collection a fresh load produces for a layout path: populated
from the element sequence exactly when the document reports errors that
are all non-fatal, empty otherwise. -/
def loaded_data (E : Env) (fuel : Nat) (l : String) : Nat → Option element_data :=
  if l = "" then fun _ => none
  else if (E.cfg_of l).hasErrors && !(E.cfg_of l).hasFatalErrors then
    populate_data (loaded_elements E fuel l) (fun _ => none)
  else fun _ => none

/-- The default record of the last element in the list carrying a data
variant and having keycode `k` (later elements take precedence), none if
no such element exists. -/
def last_default (es : List element) (k : Nat) : Option element_data :=
  match es with
  | [] => none
  | e :: rest =>
    match last_default rest k with
    | some v => some v
    | none => if e.keycode = k then default_element_data e.type else none

/-! Concrete inputs used by the witness and counterexample theorems. -/

/-- Settings used by the witness runs: both paths configured, non-default
size and gamepad index. -/
def settings0 : shared_settings :=
  { image_file := "i", layout_file := "l", cx := 7, cy := 7, gamepad := 3, selected_source := 0 }

/-- A blank overlay state to load into. -/
def overlay0 : overlay :=
  { m_elements := [], m_data := fun _ => none, m_settings := settings0,
    m_is_loaded := false, m_image := none }

/-- A config document with fatal errors. -/
def cfg_fatal : ccl_config where
  hasErrors := true
  hasFatalErrors := true
  fatal_are_errors := fun _ => rfl
  getInt := fun _ => 0
  getString := fun _ => ""
  getBool := fun _ => false
  keycodeOf := fun _ => 0
  sourceOf := fun _ => element_side.DEFAULT

/-- An error-free config document describing a single Button element with
keycode 65 (descriptor chain: first_id -> "a" -> end). -/
def cfg_clean_button : ccl_config where
  hasErrors := false
  hasFatalErrors := false
  fatal_are_errors := fun h => Bool.noConfusion h
  getInt := fun k => if k = "a_type" then 1 else 0
  getString := fun k => if k = "first_id" then "a" else ""
  getBool := fun _ => false
  keycodeOf := fun k => if k = "a" then 65 else 0
  sourceOf := fun _ => element_side.DEFAULT

/-- The same single-Button document, but reporting a non-fatal error. -/
def cfg_err_button : ccl_config where
  hasErrors := true
  hasFatalErrors := false
  fatal_are_errors := fun h => Bool.noConfusion h
  getInt := fun k => if k = "a_type" then 1 else 0
  getString := fun k => if k = "first_id" then "a" else ""
  getBool := fun _ => false
  keycodeOf := fun k => if k = "a" then 65 else 0
  sourceOf := fun _ => element_side.DEFAULT

/-- A non-fatally erroneous document describing a single Texture element
(a kind without a data variant) whose descriptor reads keycode 65. -/
def cfg_err_texture : ccl_config where
  hasErrors := true
  hasFatalErrors := false
  fatal_are_errors := fun h => Bool.noConfusion h
  getInt := fun _ => 0
  getString := fun k => if k = "first_id" then "a" else ""
  getBool := fun _ => false
  keycodeOf := fun k => if k = "a" then 65 else 0
  sourceOf := fun _ => element_side.DEFAULT

/-- A non-fatally erroneous document with two elements sharing keycode 65:
first a Button ("a"), then a Trigger ("b"). -/
def cfg_err_two : ccl_config where
  hasErrors := true
  hasFatalErrors := false
  fatal_are_errors := fun h => Bool.noConfusion h
  getInt := fun k => if k = "a_type" then 1 else if k = "b_type" then 3 else 0
  getString := fun k => if k = "first_id" then "a" else if k = "a_next" then "b" else ""
  getBool := fun _ => false
  keycodeOf := fun k => if k = "a" then 65 else if k = "b" then 65 else 0
  sourceOf := fun _ => element_side.DEFAULT

/-- Environment whose image loads (10x10) but whose layout has fatal
errors; no producer is available. -/
def env_fatal : Env where
  load_image := fun _ => some (10, 10)
  cfg_of := fun _ => cfg_fatal
  merge := fun old f => f.getD old
  data_initialized := false
  input_data := none
  network_flag := false
  server_instance := none

/-- Same as `env_fatal` but the image loads with 64x64 dimensions. -/
def env_fatal64 : Env := { env_fatal with load_image := fun _ => some (64, 64) }

/-- Environment whose image fails to load. -/
def env_noimg : Env := { env_fatal with load_image := fun _ => none }

/-- Environment loading the error-free single-Button document. -/
def env_clean_button : Env := { env_fatal with cfg_of := fun _ => cfg_clean_button }

/-- Environment loading the single-Button document with a non-fatal error. -/
def env_err_button : Env := { env_fatal with cfg_of := fun _ => cfg_err_button }

/-- Environment loading the single-Texture document with a non-fatal
error. -/
def env_err_texture : Env := { env_fatal with cfg_of := fun _ => cfg_err_texture }

/-- Environment loading the Button+Trigger shared-keycode document with a
non-fatal error. -/
def env_err_two : Env := { env_fatal with cfg_of := fun _ => cfg_err_two }

/-- A local-hook data holder reporting keycode 65 as a pressed button. -/
def holder_hook : data_holder :=
  { get_by_code := fun k =>
      if k = 65 then some (element_data.button button_state.STATE_PRESSED) else none,
    get_by_gamepad := fun _ _ => none }

/-- Environment with only the local hook producer available. -/
def env_hook : Env :=
  { env_fatal with data_initialized := true, input_data := some holder_hook }

/-- Environment with the network flag raised but no server instance, and
the hook holder present. -/
def env_flag_noserver : Env :=
  { env_fatal with network_flag := true, input_data := some holder_hook }

/-- A single-client data holder on the network side. -/
def holder_client : data_holder :=
  { get_by_code := fun k =>
      if k = 65 then some (element_data.wheel button_state.STATE_PRESSED) else none,
    get_by_gamepad := fun _ _ => none }

/-- A server instance whose every client carries `holder_client`. -/
def server_w : server_type := { get_client := fun _ => { data := holder_client } }

/-- Environment with both the hook producer and a network server. -/
def env_net : Env :=
  { env_hook with network_flag := true, server_instance := some server_w }

/-- A Button element with keycode 65 and DEFAULT source affinity. -/
def element_a : element :=
  { type := element_type.BUTTON, keycode := 65, source := element_side.DEFAULT, id := "a" }

/-- A loaded overlay holding `element_a` with a released-button record. -/
def overlay_one : overlay :=
  { m_elements := [element_a],
    m_data := fun k =>
      if k = 65 then some (element_data.button button_state.STATE_RELEASED) else none,
    m_settings := settings0, m_is_loaded := true, m_image := none }

/-- Variant of `overlay_one` with the remote-source setting pointing at client 2. -/
def overlay_sel2 : overlay :=
  { overlay_one with m_settings := { settings0 with selected_source := 2 } }

/-- A loaded overlay holding `element_a` with an empty data collection. -/
def overlay_nodata : overlay :=
  { m_elements := [element_a], m_data := fun _ => none,
    m_settings := settings0, m_is_loaded := true, m_image := none }

lemma populate_data_isSome_mono :
    ∀ (es : List element) (d : Nat → Option element_data) (k : Nat),
      (d k).isSome = true → (populate_data es d k).isSome = true := by
  intro es
  induction es with
  | nil => intro d k h; simpa [populate_data] using h
  | cons e rest ih =>
    intro d k h
    simp only [populate_data]
    cases hde : default_element_data e.type with
    | none => exact ih d k h
    | some v =>
      apply ih
      by_cases hk : k = e.keycode
      · simp [map_update, hk]
      · simpa [map_update, hk] using h

lemma populate_data_covers :
    ∀ (es : List element) (d : Nat → Option element_data) (e : element),
      e ∈ es → (default_element_data e.type).isSome = true →
      (populate_data es d e.keycode).isSome = true := by
  intro es
  induction es with
  | nil => intro d e he _; cases he
  | cons a rest ih =>
    intro d e he hd
    rcases List.mem_cons.mp he with h | h
    · subst h
      simp only [populate_data]
      obtain ⟨v, hv⟩ := Option.isSome_iff_exists.mp hd
      rw [hv]
      apply populate_data_isSome_mono
      simp [map_update]
    · simp only [populate_data]
      cases hde : default_element_data a.type with
      | none => exact ih _ e h hd
      | some v => exact ih _ e h hd

lemma populate_data_eq_last :
    ∀ (es : List element) (d : Nat → Option element_data) (k : Nat),
      populate_data es d k =
        (match last_default es k with | some v => some v | none => d k) := by
  intro es
  induction es with
  | nil => intro d k; simp [populate_data, last_default]
  | cons e rest ih =>
    intro d k
    simp only [populate_data, last_default]
    cases hde : default_element_data e.type with
    | none =>
      rw [ih]
      cases hld : last_default rest k with
      | some w => simp
      | none =>
        by_cases hk : e.keycode = k
        · simp [hk, hde]
        · simp [hk]
    | some v =>
      rw [ih]
      cases hld : last_default rest k with
      | some w => simp
      | none =>
        by_cases hk : e.keycode = k
        · subst hk; simp [hde, map_update]
        · have hk2 : ¬k = e.keycode := fun h => hk h.symm
          simp [hk, hk2, map_update]

lemma load_texture_components (E : Env) (o : overlay) :
    (overlay.load_texture E o).1.m_elements = o.m_elements ∧
    (overlay.load_texture E o).1.m_data = o.m_data ∧
    (overlay.load_texture E o).1.m_settings.layout_file = o.m_settings.layout_file ∧
    (overlay.load_texture E o).1.m_settings.image_file = o.m_settings.image_file ∧
    (overlay.load_texture E o).1.m_settings.selected_source = o.m_settings.selected_source ∧
    (overlay.load_texture E o).1.m_is_loaded = o.m_is_loaded ∧
    (overlay.load_texture E o).2 = tex_ok E o.m_settings.image_file := by
  by_cases hf : o.m_settings.image_file = ""
  · simp [overlay.load_texture, tex_ok, hf]
  · cases h : E.load_image o.m_settings.image_file with
    | none => simp [overlay.load_texture, tex_ok, hf, h]
    | some wh => simp [overlay.load_texture, tex_ok, hf, h]

lemma load_cfg_components (E : Env) (fuel : Nat) (o : overlay)
    (he : o.m_elements = []) (hd : o.m_data = fun _ => none) :
    (overlay.load_cfg E fuel o).1.m_elements = loaded_elements E fuel o.m_settings.layout_file ∧
    (overlay.load_cfg E fuel o).1.m_data = loaded_data E fuel o.m_settings.layout_file ∧
    (overlay.load_cfg E fuel o).1.m_settings.layout_file = o.m_settings.layout_file ∧
    (overlay.load_cfg E fuel o).1.m_settings.image_file = o.m_settings.image_file ∧
    (overlay.load_cfg E fuel o).1.m_settings.selected_source = o.m_settings.selected_source ∧
    (overlay.load_cfg E fuel o).1.m_is_loaded = o.m_is_loaded ∧
    (overlay.load_cfg E fuel o).2 = cfg_flag E o.m_settings.layout_file := by
  by_cases hl : o.m_settings.layout_file = ""
  · simp [overlay.load_cfg, loaded_elements, loaded_data, cfg_flag, hl, he, hd]
  · by_cases hfat : (E.cfg_of o.m_settings.layout_file).hasFatalErrors
    · have herr : (E.cfg_of o.m_settings.layout_file).hasErrors = true :=
        (E.cfg_of o.m_settings.layout_file).fatal_are_errors hfat
      simp [overlay.load_cfg, load_cfg_parse, load_cfg_finish, loaded_elements, loaded_data,
        cfg_flag, hl, hfat, herr, he, hd]
    · by_cases herr : (E.cfg_of o.m_settings.layout_file).hasErrors
      · simp [overlay.load_cfg, load_cfg_parse, load_cfg_finish, loaded_elements, loaded_data,
          cfg_flag, hl, hfat, herr, he, hd]
      · simp [overlay.load_cfg, load_cfg_parse, load_cfg_finish, loaded_elements, loaded_data,
          cfg_flag, hl, hfat, herr, he, hd]

lemma load_finish_components (b : Bool) (p : overlay × Bool) :
    (load_finish b p).m_elements = p.1.m_elements ∧
    (load_finish b p).m_data = p.1.m_data ∧
    (load_finish b p).m_is_loaded = (b && p.2) ∧
    (load_finish b p).m_settings.layout_file = p.1.m_settings.layout_file ∧
    (load_finish b p).m_settings.image_file = p.1.m_settings.image_file ∧
    (load_finish b p).m_settings.selected_source = p.1.m_settings.selected_source := by
  by_cases h : (b && p.2) = true
  · simp [load_finish, h]
  · cases b <;> simp_all [load_finish]

lemma load_finish_fail (b : Bool) (p : overlay × Bool) (h : (b && p.2) = false) :
    (load_finish b p).m_settings.gamepad = 0 ∧
    (b = false →
      (load_finish b p).m_settings.cx = 100 ∧ (load_finish b p).m_settings.cy = 100) := by
  cases b <;> simp_all [load_finish]

/-- Master characterization of `overlay::load`: the resulting element
sequence, data collection and loaded flag as functions of the environment
and the two configured paths. -/
lemma load_components (E : Env) (fuel : Nat) (o : overlay) :
    (overlay.load E fuel o).m_elements =
      (if tex_ok E o.m_settings.image_file then loaded_elements E fuel o.m_settings.layout_file
       else []) ∧
    (overlay.load E fuel o).m_data =
      (if tex_ok E o.m_settings.image_file then loaded_data E fuel o.m_settings.layout_file
       else fun _ => none) ∧
    (overlay.load E fuel o).m_is_loaded =
      (tex_ok E o.m_settings.image_file && cfg_flag E o.m_settings.layout_file) := by
  have hui : (overlay.unload o).m_settings.image_file = o.m_settings.image_file := rfl
  have hul : (overlay.unload o).m_settings.layout_file = o.m_settings.layout_file := rfl
  obtain ⟨t1, t2, t3, t4, t5, t6, t7⟩ := load_texture_components E o.unload
  rw [hui] at t4 t7
  rw [hul] at t3
  have hue : (overlay.unload o).m_elements = [] := rfl
  have hud : (overlay.unload o).m_data = fun _ => none := rfl
  rw [hue] at t1
  rw [hud] at t2
  unfold overlay.load
  rw [t7]
  by_cases htex : tex_ok E o.m_settings.image_file = true
  · obtain ⟨c1, c2, c3, c4, c5, c6, c7⟩ :=
      load_cfg_components E fuel (overlay.load_texture E o.unload).1 t1 t2
    rw [t3] at c1 c2 c7
    obtain ⟨f1, f2, f3, f4, f5, f6⟩ :=
      load_finish_components true (overlay.load_cfg E fuel (overlay.load_texture E o.unload).1)
    refine ⟨?_, ?_, ?_⟩ <;> simp [htex, f1, f2, f3, c1, c2, c7]
  · have htex' : tex_ok E o.m_settings.image_file = false := by
      cases h : tex_ok E o.m_settings.image_file
      · rfl
      · exact absurd h htex
    obtain ⟨f1, f2, f3, f4, f5, f6⟩ :=
      load_finish_components false ((overlay.load_texture E o.unload).1, false)
    refine ⟨?_, ?_, ?_⟩ <;> simp [htex', f1, f2, f3, t1, t2]

/-- Lemma: `overlay::load` never changes the configured image and layout paths. -/
lemma load_settings_files (E : Env) (fuel : Nat) (o : overlay) :
    (overlay.load E fuel o).m_settings.image_file = o.m_settings.image_file ∧
    (overlay.load E fuel o).m_settings.layout_file = o.m_settings.layout_file := by
  have hui : (overlay.unload o).m_settings.image_file = o.m_settings.image_file := rfl
  have hul : (overlay.unload o).m_settings.layout_file = o.m_settings.layout_file := rfl
  obtain ⟨t1, t2, t3, t4, t5, t6, t7⟩ := load_texture_components E o.unload
  have hue : (overlay.unload o).m_elements = [] := rfl
  have hud : (overlay.unload o).m_data = fun _ => none := rfl
  rw [hue] at t1
  rw [hud] at t2
  unfold overlay.load
  by_cases htex : (overlay.load_texture E o.unload).2 = true
  · obtain ⟨c1, c2, c3, c4, c5, c6, c7⟩ :=
      load_cfg_components E fuel (overlay.load_texture E o.unload).1 t1 t2
    obtain ⟨f1, f2, f3, f4, f5, f6⟩ :=
      load_finish_components true (overlay.load_cfg E fuel (overlay.load_texture E o.unload).1)
    constructor
    · simp [htex, f5, c4, t4, hui]
    · simp [htex, f4, c3, t3, hul]
  · have htex' : (overlay.load_texture E o.unload).2 = false := by
      cases h : (overlay.load_texture E o.unload).2
      · rfl
      · exact absurd h htex
    obtain ⟨f1, f2, f3, f4, f5, f6⟩ :=
      load_finish_components false ((overlay.load_texture E o.unload).1, false)
    constructor
    · simp [htex', f5, t4, hui]
    · simp [htex', f4, t3, hul]

/-! Claim theorems. -/

/-- C5: for every layout document whose configuration reports fatal
errors, load produces zero Elements, an empty ElementData collection, and
`m_is_loaded = false`, regardless of how many valid element descriptors
the document contains. -/
theorem fatal_error_short_circuit (E : Env) (fuel : Nat) (o : overlay)
    (h : (E.cfg_of o.m_settings.layout_file).hasFatalErrors = true) :
    (overlay.load E fuel o).m_elements = [] ∧
    (overlay.load E fuel o).m_data = (fun _ => none) ∧
    (overlay.load E fuel o).m_is_loaded = false := by
  obtain ⟨h1, h2, h3⟩ := load_components E fuel o
  have hcf : cfg_flag E o.m_settings.layout_file = false := by
    by_cases hl : o.m_settings.layout_file = "" <;> simp [cfg_flag, hl, h]
  have hle : loaded_elements E fuel o.m_settings.layout_file = [] := by
    by_cases hl : o.m_settings.layout_file = "" <;> simp [loaded_elements, hl, h]
  have hld : loaded_data E fuel o.m_settings.layout_file = fun _ => none := by
    by_cases hl : o.m_settings.layout_file = "" <;> simp [loaded_data, hl, h]
  refine ⟨?_, ?_, ?_⟩
  · rw [h1, hle]; simp
  · rw [h2, hld]; simp
  · rw [h3, hcf]; simp

/-- Witness for C5 at a concrete fatal-error environment. -/
theorem fatal_error_short_circuit_witness :
    (env_fatal.cfg_of overlay0.m_settings.layout_file).hasFatalErrors = true ∧
    ((overlay.load env_fatal 4 overlay0).m_elements = [] ∧
     (overlay.load env_fatal 4 overlay0).m_data = (fun _ => none) ∧
     (overlay.load env_fatal 4 overlay0).m_is_loaded = false) :=
  ⟨rfl, fatal_error_short_circuit env_fatal 4 overlay0 rfl⟩

/-- C6: after every load invocation, `m_is_loaded` equals the conjunction
of the two step results: the texture step succeeded and the
layout-configuration step completed without fatal error. -/
theorem is_loaded_conjunction (E : Env) (fuel : Nat) (o : overlay) :
    (overlay.load E fuel o).m_is_loaded =
      (tex_ok E o.m_settings.image_file && cfg_flag E o.m_settings.layout_file) ∧
    (overlay.load_texture E o.unload).2 = tex_ok E o.m_settings.image_file ∧
    (overlay.load_cfg E fuel (overlay.load_texture E o.unload).1).2 =
      cfg_flag E o.m_settings.layout_file := by
  obtain ⟨-, -, h3⟩ := load_components E fuel o
  obtain ⟨t1, t2, t3, t4, t5, t6, t7⟩ := load_texture_components E o.unload
  have hue : (overlay.unload o).m_elements = [] := rfl
  have hud : (overlay.unload o).m_data = fun _ => none := rfl
  rw [hue] at t1
  rw [hud] at t2
  obtain ⟨-, -, -, -, -, -, c7⟩ :=
    load_cfg_components E fuel (overlay.load_texture E o.unload).1 t1 t2
  refine ⟨h3, ?_, ?_⟩
  · rw [t7]; rfl
  · rw [c7, t3]; rfl

/-- C7: loading twice in succession yields the same `m_is_loaded` result
and the same element sequence and data collection as loading once. -/
theorem idempotent_reload (E : Env) (fuel : Nat) (o : overlay) :
    (overlay.load E fuel (overlay.load E fuel o)).m_is_loaded =
      (overlay.load E fuel o).m_is_loaded ∧
    (overlay.load E fuel (overlay.load E fuel o)).m_elements =
      (overlay.load E fuel o).m_elements ∧
    (overlay.load E fuel (overlay.load E fuel o)).m_data =
      (overlay.load E fuel o).m_data := by
  obtain ⟨g1, g2⟩ := load_settings_files E fuel o
  obtain ⟨a1, a2, a3⟩ := load_components E fuel o
  obtain ⟨b1, b2, b3⟩ := load_components E fuel (overlay.load E fuel o)
  rw [g1, g2] at b1 b2 b3
  exact ⟨by rw [b3, a3], by rw [b1, a1], by rw [b2, a2]⟩

/-- C9: when neither the hook producer is initialized nor the network flag
is raised, no source is selected and the refresh cycle leaves the overlay
(and thus every data record) unchanged. -/
theorem no_producer_no_op (E : Env) (o : overlay)
    (h1 : E.data_initialized = false) (h2 : E.network_flag = false) :
    select_source E o.m_settings = none ∧ overlay.refresh_data E o = o := by
  have hs : select_source E o.m_settings = none := by
    simp [select_source, h1, h2]
  exact ⟨hs, by simp [overlay.refresh_data, hs]⟩

/-- Witness for C9 at a concrete idle environment. -/
theorem no_producer_no_op_witness :
    env_fatal.data_initialized = false ∧ env_fatal.network_flag = false ∧
    (select_source env_fatal overlay_one.m_settings = none ∧
     overlay.refresh_data env_fatal overlay_one = overlay_one) :=
  ⟨rfl, rfl, no_producer_no_op env_fatal overlay_one rfl rfl⟩

/-- C10: when the overlay is loaded, draw performs exactly one per-element
call per Element in sequence order; the keyed lookup yields `none` for a
missing keycode and the call is still made with that null data pointer. -/
theorem draw_dispatch (o : overlay) (h : o.m_is_loaded = true) :
    (overlay.draw o).length = o.m_elements.length ∧
    ∀ i : Nat, (overlay.draw o)[i]? =
      (o.m_elements[i]?).map (fun e => (e, o.m_data e.keycode)) := by
  constructor
  · simp [overlay.draw, h]
  · intro i
    simp [overlay.draw, h]

/-- Witness for C10 at a loaded overlay whose data collection is empty:
the single draw call still happens, with a `none` data pointer. -/
theorem draw_dispatch_witness :
    overlay_nodata.m_is_loaded = true ∧
    ((overlay.draw overlay_nodata).length = overlay_nodata.m_elements.length ∧
     ∀ i : Nat, (overlay.draw overlay_nodata)[i]? =
       (overlay_nodata.m_elements[i]?).map (fun e => (e, overlay_nodata.m_data e.keycode))) :=
  ⟨rfl, draw_dispatch overlay_nodata rfl⟩

/-- C1 counterexample: a load whose configuration reports no errors at all
succeeds with its Button element (keycode 65) in the sequence, yet the
data collection has no entry for that keycode — the populate loop only
runs inside the non-fatal-error branch; moreover even a populated
(non-fatally erroneous) load leaves a Texture element's keycode without
an entry, since kinds without a data variant allocate nothing. -/
theorem keycode_coverage_counterexample :
    ((overlay.load env_clean_button 4 overlay0).m_is_loaded = true ∧
     (overlay.load env_clean_button 4 overlay0).m_elements.map element.keycode = [65] ∧
     (overlay.load env_clean_button 4 overlay0).m_data 65 = none) ∧
    ((overlay.load env_err_texture 4 overlay0).m_is_loaded = true ∧
     (overlay.load env_err_texture 4 overlay0).m_elements.map
        (fun e => (e.type, e.keycode)) = [(element_type.TEXTURE, 65)] ∧
     (overlay.load env_err_texture 4 overlay0).m_data 65 = none) :=
  ⟨⟨by decide, by decide, by decide⟩, ⟨by decide, by decide, by decide⟩⟩

/-- C1 (amended): after a load that succeeded with the configuration
reporting (non-fatal) errors, every Element whose kind has a data variant
has an ElementData entry keyed by its keycode. -/
theorem keycode_coverage_amended (E : Env) (fuel : Nat) (o : overlay)
    (h1 : (overlay.load E fuel o).m_is_loaded = true)
    (h2 : (E.cfg_of o.m_settings.layout_file).hasErrors = true) :
    ∀ e ∈ (overlay.load E fuel o).m_elements,
      (default_element_data e.type).isSome = true →
      ((overlay.load E fuel o).m_data e.keycode).isSome = true := by
  obtain ⟨a1, a2, a3⟩ := load_components E fuel o
  rw [a3, Bool.and_eq_true] at h1
  obtain ⟨htex, hcf⟩ := h1
  have hl : ¬o.m_settings.layout_file = "" := by
    intro hemp
    simp [cfg_flag, hemp] at hcf
  have hfat : (E.cfg_of o.m_settings.layout_file).hasFatalErrors = false := by
    simpa [cfg_flag, hl] using hcf
  have hcd : loaded_data E fuel o.m_settings.layout_file =
      populate_data (loaded_elements E fuel o.m_settings.layout_file) (fun _ => none) := by
    simp [loaded_data, hl, h2, hfat]
  intro e he hdef
  rw [a1, if_pos htex] at he
  rw [a2, if_pos htex, hcd]
  exact populate_data_covers _ _ e he hdef

/-- Witness for the amended C1 at a one-Button non-fatally-erroneous load. -/
theorem keycode_coverage_amended_witness :
    (overlay.load env_err_button 4 overlay0).m_is_loaded = true ∧
    (env_err_button.cfg_of overlay0.m_settings.layout_file).hasErrors = true ∧
    (∀ e ∈ (overlay.load env_err_button 4 overlay0).m_elements,
      (default_element_data e.type).isSome = true →
      ((overlay.load env_err_button 4 overlay0).m_data e.keycode).isSome = true) :=
  ⟨by decide, rfl, keycode_coverage_amended env_err_button 4 overlay0 (by decide) rfl⟩

/-- C2 counterexample: a populated load with a Button followed by a
Trigger sharing keycode 65 stores the Trigger (last-encountered) variant,
not the variant of the first Element with that keycode. -/
theorem kind_consistency_counterexample :
    (overlay.load env_err_two 4 overlay0).m_is_loaded = true ∧
    (overlay.load env_err_two 4 overlay0).m_elements.map
        (fun e => (e.type, e.keycode)) =
      [(element_type.BUTTON, 65), (element_type.TRIGGER, 65)] ∧
    (overlay.load env_err_two 4 overlay0).m_data 65 = some (element_data.trigger 0 0) :=
  ⟨by decide, by decide, by decide⟩

/-- C2 (amended): in every populated load, the entry at a keycode is the
default record of the *last* Element (in configuration order) with that
keycode whose kind carries a data variant, and absent when no such
Element exists. -/
theorem kind_consistency_amended (E : Env) (fuel : Nat) (o : overlay)
    (h1 : (overlay.load E fuel o).m_is_loaded = true)
    (h2 : (E.cfg_of o.m_settings.layout_file).hasErrors = true) :
    ∀ k : Nat, (overlay.load E fuel o).m_data k =
      last_default (overlay.load E fuel o).m_elements k := by
  obtain ⟨a1, a2, a3⟩ := load_components E fuel o
  rw [a3, Bool.and_eq_true] at h1
  obtain ⟨htex, hcf⟩ := h1
  have hl : ¬o.m_settings.layout_file = "" := by
    intro hemp
    simp [cfg_flag, hemp] at hcf
  have hfat : (E.cfg_of o.m_settings.layout_file).hasFatalErrors = false := by
    simpa [cfg_flag, hl] using hcf
  have hcd : loaded_data E fuel o.m_settings.layout_file =
      populate_data (loaded_elements E fuel o.m_settings.layout_file) (fun _ => none) := by
    simp [loaded_data, hl, h2, hfat]
  intro k
  rw [a2, if_pos htex, hcd, a1, if_pos htex, populate_data_eq_last]
  cases last_default (loaded_elements E fuel o.m_settings.layout_file) k <;> rfl

/-- Witness for the amended C2 at the Button+Trigger shared-keycode load. -/
theorem kind_consistency_amended_witness :
    (overlay.load env_err_two 4 overlay0).m_is_loaded = true ∧
    (env_err_two.cfg_of overlay0.m_settings.layout_file).hasErrors = true ∧
    (∀ k : Nat, (overlay.load env_err_two 4 overlay0).m_data k =
      last_default (overlay.load env_err_two 4 overlay0).m_elements k) :=
  ⟨by decide, rfl, kind_consistency_amended env_err_two 4 overlay0 (by decide) rfl⟩

/-- C3 counterexample: the texture loads with 64x64 dimensions and the
layout fails fatally: the load fails, yet the logical size keeps the
image dimensions instead of being reset to the 100x100 defaults. -/
theorem load_failure_defaults_counterexample :
    (overlay.load env_fatal64 4 overlay0).m_is_loaded = false ∧
    (overlay.load env_fatal64 4 overlay0).m_settings.cx = 64 ∧
    (overlay.load env_fatal64 4 overlay0).m_settings.cy = 64 :=
  ⟨by decide, by decide, by decide⟩

/-- C3 (amended): on any load failure the gamepad index is reset to 0; the
logical size is reset to the 100x100 default exactly in the case where the
texture step itself failed. -/
theorem load_failure_defaults (E : Env) (fuel : Nat) (o : overlay)
    (h : (overlay.load E fuel o).m_is_loaded = false) :
    (overlay.load E fuel o).m_settings.gamepad = 0 ∧
    (tex_ok E o.m_settings.image_file = false →
      (overlay.load E fuel o).m_settings.cx = 100 ∧
      (overlay.load E fuel o).m_settings.cy = 100) := by
  obtain ⟨t1, t2, t3, t4, t5, t6, t7⟩ := load_texture_components E o.unload
  have hue : (overlay.unload o).m_elements = [] := rfl
  have hud : (overlay.unload o).m_data = fun _ => none := rfl
  rw [hue] at t1
  rw [hud] at t2
  have hti : o.unload.m_settings.image_file = o.m_settings.image_file := rfl
  rw [hti] at t7
  obtain ⟨-, -, a3⟩ := load_components E fuel o
  rw [h] at a3
  have hand : (tex_ok E o.m_settings.image_file && cfg_flag E o.m_settings.layout_file)
      = false := a3.symm
  unfold overlay.load
  rw [t7]
  by_cases htex : tex_ok E o.m_settings.image_file = true
  · obtain ⟨c1, c2, c3, c4, c5, c6, c7⟩ :=
      load_cfg_components E fuel (overlay.load_texture E o.unload).1 t1 t2
    rw [t3] at c7
    have hp2 : (overlay.load_cfg E fuel (overlay.load_texture E o.unload).1).2 = false := by
      rw [c7]
      rw [htex] at hand
      simpa using hand
    obtain ⟨g1, g2⟩ :=
      load_finish_fail true (overlay.load_cfg E fuel (overlay.load_texture E o.unload).1)
        (by simp [hp2])
    refine ⟨?_, ?_⟩
    · simpa [htex] using g1
    · intro hf
      rw [htex] at hf
      cases hf
  · have htex' : tex_ok E o.m_settings.image_file = false := by
      cases hx : tex_ok E o.m_settings.image_file
      · rfl
      · exact absurd hx htex
    obtain ⟨g1, g2⟩ :=
      load_finish_fail false ((overlay.load_texture E o.unload).1, false) (by simp)
    refine ⟨?_, ?_⟩
    · simpa [htex'] using g1
    · intro _
      have hg := g2 rfl
      constructor
      · simpa [htex'] using hg.1
      · simpa [htex'] using hg.2

/-- Witness for the amended C3 at a failed texture load. -/
theorem load_failure_defaults_witness :
    (overlay.load env_noimg 4 overlay0).m_is_loaded = false ∧
    ((overlay.load env_noimg 4 overlay0).m_settings.gamepad = 0 ∧
     (tex_ok env_noimg overlay0.m_settings.image_file = false →
       (overlay.load env_noimg 4 overlay0).m_settings.cx = 100 ∧
       (overlay.load env_noimg 4 overlay0).m_settings.cy = 100)) :=
  ⟨by decide, load_failure_defaults env_noimg 4 overlay0 (by decide)⟩

/-- C4 counterexample: the network flag is raised and the selected-source
setting is 2, but no server instance exists: refresh selects the
local-hook holder and merges its fragment (the pressed button reported by
the hook) — not a network client's holder. -/
theorem source_exclusivity_counterexample :
    env_flag_noserver.network_flag = true ∧
    overlay_sel2.m_settings.selected_source = 2 ∧
    select_source env_flag_noserver overlay_sel2.m_settings = env_flag_noserver.input_data ∧
    env_flag_noserver.input_data = some holder_hook ∧
    (overlay.refresh_data env_flag_noserver overlay_sel2).m_data 65 =
      some (element_data.button button_state.STATE_PRESSED) :=
  ⟨rfl, rfl, rfl, rfl, by decide⟩

/-- C4 (amended): when some producer is available, the server instance
exists and the selected-source setting is non-zero, the selected source is
the data holder of the client at the 0-based index `selected_source - 1`,
and the whole refresh cycle pulls from it (never from the local holder). -/
theorem source_exclusivity_amended (E : Env) (o : overlay) (srv : server_type)
    (hs : E.server_instance = some srv)
    (hsel : 0 < o.m_settings.selected_source)
    (hav : E.data_initialized = true ∨ E.network_flag = true) :
    select_source E o.m_settings =
      some ((srv.get_client (o.m_settings.selected_source - 1)).data) ∧
    overlay.refresh_data E o =
      { o with
        m_data :=
          o.m_elements.foldl
            (refresh_step E.merge
              ((srv.get_client (o.m_settings.selected_source - 1)).data) o.m_settings)
            o.m_data } := by
  have hcond : (E.data_initialized || E.network_flag) = true := by
    rcases hav with h | h <;> simp [h]
  have hsrc : select_source E o.m_settings =
      some ((srv.get_client (o.m_settings.selected_source - 1)).data) := by
    simp [select_source, hcond, hs, hsel]
  exact ⟨hsrc, by simp [overlay.refresh_data, hsrc]⟩

/-- Witness for the amended C4 at a concrete networked environment. -/
theorem source_exclusivity_amended_witness :
    env_net.server_instance = some server_w ∧
    0 < overlay_sel2.m_settings.selected_source ∧
    (env_net.data_initialized = true ∨ env_net.network_flag = true) ∧
    (select_source env_net overlay_sel2.m_settings =
       some ((server_w.get_client (overlay_sel2.m_settings.selected_source - 1)).data) ∧
     overlay.refresh_data env_net overlay_sel2 =
       { overlay_sel2 with
         m_data :=
           overlay_sel2.m_elements.foldl
             (refresh_step env_net.merge
               ((server_w.get_client (overlay_sel2.m_settings.selected_source - 1)).data)
               overlay_sel2.m_settings)
             overlay_sel2.m_data }) :=
  ⟨rfl, by decide, Or.inl rfl,
    source_exclusivity_amended env_net overlay_sel2 server_w rfl (by decide) (Or.inl rfl)⟩

/-- C8: with a selected source, the refresh cycle folds the per-element
step over the sequence; the fetched fragment follows the element's source
affinity (GAMEPAD by (gamepad index, keycode); DEFAULT and MOUSE_POS by
keycode; NONE no fetch), and the merge is applied to the owned record at
the keycode exactly when an entry exists there. -/
theorem per_element_pull (E : Env) (o : overlay) (src : data_holder)
    (h : select_source E o.m_settings = some src) :
    overlay.refresh_data E o =
      { o with m_data :=
          o.m_elements.foldl (refresh_step E.merge src o.m_settings) o.m_data } ∧
    (∀ e : element, e.source = element_side.GAMEPAD →
      pull_fragment (some src) o.m_settings e =
        src.get_by_gamepad o.m_settings.gamepad e.keycode) ∧
    (∀ e : element, e.source = element_side.DEFAULT ∨ e.source = element_side.MOUSE_POS →
      pull_fragment (some src) o.m_settings e = src.get_by_code e.keycode) ∧
    (∀ e : element, e.source = element_side.NONE →
      pull_fragment (some src) o.m_settings e = none) ∧
    (∀ (d : Nat → Option element_data) (e : element) (v : element_data),
      d e.keycode = some v →
      refresh_step E.merge src o.m_settings d e =
        map_update d e.keycode
          (some (E.merge v (pull_fragment (some src) o.m_settings e)))) ∧
    (∀ (d : Nat → Option element_data) (e : element),
      d e.keycode = none → refresh_step E.merge src o.m_settings d e = d) := by
  refine ⟨by simp [overlay.refresh_data, h], ?_, ?_, ?_, ?_, ?_⟩
  · intro e he
    simp [pull_fragment, he]
  · rintro e (he | he) <;> simp [pull_fragment, he]
  · intro e he
    simp [pull_fragment, he]
  · intro d e v hv
    simp [refresh_step, hv]
  · intro d e hv
    simp [refresh_step, hv]

/-- Witness for C8 at a concrete hook-sourced refresh. -/
theorem per_element_pull_witness :
    select_source env_hook overlay_one.m_settings = some holder_hook ∧
    (overlay.refresh_data env_hook overlay_one =
      { overlay_one with
        m_data :=
          overlay_one.m_elements.foldl
            (refresh_step env_hook.merge holder_hook overlay_one.m_settings)
            overlay_one.m_data } ∧
    (∀ e : element, e.source = element_side.GAMEPAD →
      pull_fragment (some holder_hook) overlay_one.m_settings e =
        holder_hook.get_by_gamepad overlay_one.m_settings.gamepad e.keycode) ∧
    (∀ e : element, e.source = element_side.DEFAULT ∨ e.source = element_side.MOUSE_POS →
      pull_fragment (some holder_hook) overlay_one.m_settings e =
        holder_hook.get_by_code e.keycode) ∧
    (∀ e : element, e.source = element_side.NONE →
      pull_fragment (some holder_hook) overlay_one.m_settings e = none) ∧
    (∀ (d : Nat → Option element_data) (e : element) (v : element_data),
      d e.keycode = some v →
      refresh_step env_hook.merge holder_hook overlay_one.m_settings d e =
        map_update d e.keycode
          (some (env_hook.merge v (pull_fragment (some holder_hook) overlay_one.m_settings e)))) ∧
    (∀ (d : Nat → Option element_data) (e : element),
      d e.keycode = none →
      refresh_step env_hook.merge holder_hook overlay_one.m_settings d e = d)) :=
  ⟨rfl, per_element_pull env_hook overlay_one holder_hook rfl⟩

end input_overlay
